import Mathlib

/-!
Verification of the `GeminiAPIManager` component of the excel-ai-assistant
repository (`src/app/services/gemini_api_manager.py`).

The vendor SDK (`google.generativeai`) is modelled as a `Provider` record of
deterministic functions.  A Python exception raised inside an SDK call is
modelled as the `Except.error` case carrying the exception text, and the
`try/except` blocks of the source become `match` on that value; every
operation of the embedding is a total Lean function, mirroring the fact that
the source catches all provider exceptions at its public boundary.  Besides
its return value, each request-issuing operation also returns the list of
`generate_content` calls it made, so that theorems can speak about the exact
prompt sent to the provider.
-/

namespace ExcelAI

/-- One entry of the static `AVAILABLE_MODELS` class attribute: a Python
dict with keys `id`, `name` and `api`. -/
structure ModelDescriptor where
  id : String
  name : String
  api : String
  deriving Repr, DecidableEq

/-- The contents of the static class attribute `AVAILABLE_MODELS`. -/
def AVAILABLE_MODELS : List ModelDescriptor :=
  [⟨"models/gemini-2.0-flash", "Gemini 2.0 Flash", "gemini"⟩,
   ⟨"models/gemini-2.0-flash-lite", "Gemini 2.0 Flash Lite", "gemini"⟩,
   ⟨"models/gemini-2.5-flash", "Gemini 2.5 Flash", "gemini"⟩,
   ⟨"models/gemini-2.5-pro", "Gemini 2.5 Pro", "gemini"⟩]

/-- A client handle (`genai.GenerativeModel`), recorded together with the
credential that was configured and the model id it was constructed from. -/
structure Client where
  api_key : String
  model : String
  deriving Repr, DecidableEq

/-- `genai.types.GenerationConfig`: the two fields the source ever sets. -/
structure GenConfig where
  max_output_tokens : Nat
  temperature : Rat
  deriving Repr, DecidableEq

/-- A record of one `generate_content` request issued to the provider. -/
structure GenCall where
  client : Client
  prompt : String
  config : GenConfig
  deriving Repr, DecidableEq

/-- The vendor SDK.  `configure` models `genai.configure(api_key=...)`,
`generativeModel` models the `genai.GenerativeModel(model)` constructor, and
`generate_content` models `client.generate_content(prompt, generation_config)`.
An `Except.error e` models a raised exception whose `str` is `e`; for
`generate_content`, `Except.ok r` carries the response text (`none` for a
response with no usable text, mirroring `response.text` being falsy). -/
structure Provider where
  configure : String → Except String Unit
  generativeModel : String → Except String Unit
  generate_content : Client → String → GenConfig → Except String (Option String)

/-- The mutable attributes of a `GeminiAPIManager` instance. -/
structure Manager where
  api_key : String
  model : String
  client : Option Client
  deriving Repr, DecidableEq

/-- Whether an SDK call succeeded (did not raise). -/
def exOk : Except String Unit → Bool
  | Except.ok _ => true
  | Except.error _ => false

/-- Python truthiness of `response and response.text`: a response exposing
non-empty text. -/
def respHasText : Option String → Bool
  | some t => t != ""
  | none => false

/-- Python `str.strip()`: remove leading and trailing whitespace. -/
def pyStrip (s : String) : String :=
  String.mk (((s.data.dropWhile Char.isWhitespace).reverse.dropWhile Char.isWhitespace).reverse)

/-- The `if api_key: self.api_key = api_key` prologue of `initialize`:
Python truthiness means a `None` or empty-string argument does not overwrite
the stored key. -/
def withKeyArg (st : Manager) (key : Option String) : Manager :=
  match key with
  | some k => if k = "" then st else ⟨k, st.model, st.client⟩
  | none => st

/-- The rest of `initialize` after the key argument was stored: the missing-key
guard and the `try` block that configures the SDK and constructs the client. -/
def initCore (P : Provider) (st : Manager) : Manager × Bool :=
  if st.api_key = "" then (st, false)
  else
    match P.configure st.api_key with
    | Except.error _ => (st, false)
    | Except.ok _ =>
      match P.generativeModel st.model with
      | Except.error _ => (st, false)
      | Except.ok _ => (⟨st.api_key, st.model, some ⟨st.api_key, st.model⟩⟩, true)

/-- `GeminiAPIManager.initialize(api_key=None)`.  A `some k` argument models
passing `k`.  Returns the updated manager and the boolean the method
returns. -/
def initManager (P : Provider) (st : Manager) (key : Option String) : Manager × Bool :=
  initCore P (withKeyArg st key)

/-- `GeminiAPIManager.__init__(api_key="", model="gemini-1.5-flash")`:
stores the arguments, leaves the client unset, and eagerly initializes when
the key is truthy. -/
def mkManager (P : Provider) (api_key model : String) : Manager :=
  let st : Manager := ⟨api_key, model, none⟩
  if api_key = "" then st else (initManager P st (some api_key)).1

/-- `GeminiAPIManager.set_model(model)`: store the model id, then, when a
credential is present, rebuild the client; a raised rebuild exception is
logged and swallowed, leaving the previous client in place. -/
def set_model (P : Provider) (st : Manager) (m : String) : Manager :=
  let st1 : Manager := ⟨st.api_key, m, st.client⟩
  if st1.api_key = "" then st1
  else
    match P.configure st1.api_key with
    | Except.error _ => st1
    | Except.ok _ =>
      match P.generativeModel st1.model with
      | Except.error _ => st1
      | Except.ok _ => ⟨st1.api_key, st1.model, some ⟨st1.api_key, st1.model⟩⟩

/-- A fragment of the Python heap, for `get_available_models`: list objects
hold references to descriptor dict objects.  Reference `0` of `lists` is the
class attribute `AVAILABLE_MODELS` itself. -/
structure PyHeap where
  lists : List (List Nat)
  dicts : List ModelDescriptor
  deriving Repr, DecidableEq

/-- The heap at import time: the class attribute references the four static
descriptor dicts. -/
def heap0 : PyHeap := ⟨[[0, 1, 2, 3]], AVAILABLE_MODELS⟩

/-- `GeminiAPIManager.get_available_models()`: `AVAILABLE_MODELS.copy()`
allocates a fresh list object holding the same dict references, and returns
a reference to it. -/
def get_available_models (h : PyHeap) : PyHeap × Nat :=
  (⟨h.lists ++ [h.lists.getD 0 []], h.dicts⟩, h.lists.length)

/-- Read the descriptors a list object currently references. -/
def readListObj (h : PyHeap) (r : Nat) : List (Option ModelDescriptor) :=
  (h.lists.getD r []).map (fun i => h.dicts.get? i)

/-- In-place mutation of a list object (append, remove, item assignment, ...)
summarised as replacing its element references. -/
def mutateListObj (h : PyHeap) (r : Nat) (elems : List Nat) : PyHeap :=
  ⟨h.lists.set r elems, h.dicts⟩

/-- In-place mutation of a descriptor dict object. -/
def mutateDictObj (h : PyHeap) (r : Nat) (d : ModelDescriptor) : PyHeap :=
  ⟨h.lists, h.dicts.set r d⟩

/-- The fixed probe prompt of `test_connection`. -/
def probePrompt : String := "Test connection - respond with just \x27OK\x27"

/-- The probe generation config of `test_connection`:
`max_output_tokens=10, temperature=0.1`. -/
def probeConfig : GenConfig := ⟨10, (1 : Rat) / 10⟩

/-- The `try` body of `test_connection`, run with the current client. -/
def connBody (P : Provider) (st : Manager) (c : Client) :
    Manager × (Bool × String) × List GenCall :=
  match P.generate_content c probePrompt probeConfig with
  | Except.error e => (st, (false, "Gemini Error: " ++ e), [⟨c, probePrompt, probeConfig⟩])
  | Except.ok r =>
    if respHasText r then (st, (true, "Gemini connection successful"), [⟨c, probePrompt, probeConfig⟩])
    else (st, (false, "Invalid response from Gemini API"), [⟨c, probePrompt, probeConfig⟩])

/-- `GeminiAPIManager.test_connection()`. -/
def test_connection (P : Provider) (st : Manager) :
    Manager × (Bool × String) × List GenCall :=
  match st.client with
  | some c => connBody P st c
  | none =>
    let r := initManager P st none
    if r.2 then
      match r.1.client with
      | some c => connBody P r.1 c
      | none => (r.1, (false, "Gemini API client not initialized"), [])
    else (r.1, (false, "Gemini API client not initialized"), [])

/-- The prompt built by `process_single_cell`: the f-string base, then — when
`context_data` is truthy and non-empty — the context block accumulated by the
`for key, value in context_data.items()` loop.  The ordered association list
models the dict in iteration order. -/
def buildPrompt (cell_content system_prompt user_prompt : String)
    (context_data : Option (List (String × String))) : String :=
  let base := system_prompt ++ "\n\n" ++ user_prompt ++ "\n\nCell content: " ++ cell_content
  match context_data with
  | some l =>
    if 0 < l.length then
      base ++ l.foldl (fun acc kv => acc ++ "- " ++ kv.1 ++ ": " ++ kv.2 ++ "\n")
        "\n\nContext information:\n"
    else base
  | none => base

/-- The `try` body of `process_single_cell`, run with the current client. -/
def cellBody (P : Provider) (st : Manager) (c : Client) (prompt : String) (cfg : GenConfig) :
    Manager × (Bool × Option String × Option String) × List GenCall :=
  match P.generate_content c prompt cfg with
  | Except.error e =>
      (st, (false, none, some ("Gemini Error: " ++ e)), [⟨c, prompt, cfg⟩])
  | Except.ok r =>
    if respHasText r then
      (st, (true, some (pyStrip (r.getD "")), none), [⟨c, prompt, cfg⟩])
    else
      (st, (false, none, some "Empty response from Gemini API"), [⟨c, prompt, cfg⟩])

/-- `GeminiAPIManager.process_single_cell(cell_content, system_prompt,
user_prompt, temperature=0.3, max_tokens=150, context_data=None)`. -/
def process_single_cell (P : Provider) (st : Manager)
    (cell_content system_prompt user_prompt : String)
    (temperature : Rat) (max_tokens : Nat)
    (context_data : Option (List (String × String))) :
    Manager × (Bool × Option String × Option String) × List GenCall :=
  let prompt := buildPrompt cell_content system_prompt user_prompt context_data
  let cfg : GenConfig := ⟨max_tokens, temperature⟩
  match st.client with
  | some c => cellBody P st c prompt cfg
  | none =>
    let r := initManager P st none
    if r.2 then
      match r.1.client with
      | some c => cellBody P r.1 c prompt cfg
      | none => (r.1, (false, none, some "Gemini API client not initialized"), [])
    else (r.1, (false, none, some "Gemini API client not initialized"), [])

/-- The default `temperature` of `process_single_cell`. -/
def defaultTemperature : Rat := (3 : Rat) / 10

/-- The default `max_tokens` of `process_single_cell`. -/
def defaultMaxTokens : Nat := 150

/-- Concatenation of a list of lines, in order. -/
def concatLines (xs : List String) : String :=
  xs.foldr (fun x acc => x ++ acc) ""

/-- The prompt as the specification words it: system prompt, blank line, user
prompt, blank line, the label `Cell content: ` followed by the cell text,
and — only for non-empty context data — a trailing block starting with
`Context information:` followed by one line `- key: value` per entry in
iteration order, each ending in a newline. -/
def specPrompt (cell_content system_prompt user_prompt : String)
    (context_data : List (String × String)) : String :=
  system_prompt ++ "\n\n" ++ user_prompt ++ "\n\n" ++ "Cell content: " ++ cell_content ++
    (if context_data.isEmpty then ""
     else "\n\n" ++ "Context information:" ++ "\n" ++
       concatLines (context_data.map (fun kv => "- " ++ kv.1 ++ ": " ++ kv.2 ++ "\n")))

/-- One public operation of the manager, for reachability statements. -/
inductive Op where
  | opInit (key : Option String)
  | opSetModel (m : String)
  | opGetModels
  | opTestConn
  | opProcessCell (cell_content system_prompt user_prompt : String)
      (temperature : Rat) (max_tokens : Nat)
      (context_data : Option (List (String × String)))

/-- The manager state after one public operation.  `get_available_models`
reads only the class attribute and leaves the instance untouched. -/
def step (P : Provider) (st : Manager) : Op → Manager
  | Op.opInit k => (initManager P st k).1
  | Op.opSetModel m => set_model P st m
  | Op.opGetModels => st
  | Op.opTestConn => (test_connection P st).1
  | Op.opProcessCell a b c t mt ctx => (process_single_cell P st a b c t mt ctx).1

/-- The manager state after a sequence of public operations. -/
def run (P : Provider) (st : Manager) : List Op → Manager
  | [] => st
  | op :: ops => run P (step P st op) ops

/-- Whether a call `initialize(key)` from state `st` returns `True`. -/
def initSucceeds (P : Provider) (st : Manager) (key : Option String) : Bool :=
  (initManager P st key).2

/-- Whether executing `op` from `st` contains a successful `initialize` call
(a direct one, or the lazy one performed by `test_connection` and
`process_single_cell` when the client is unset). -/
def opInitSuccess (P : Provider) (st : Manager) : Op → Bool
  | Op.opInit k => initSucceeds P st k
  | Op.opSetModel _ => false
  | Op.opGetModels => false
  | Op.opTestConn => st.client.isNone && initSucceeds P st none
  | Op.opProcessCell _ _ _ _ _ _ => st.client.isNone && initSucceeds P st none

/-- Whether executing `op` from `st` constructs a client handle: a successful
`initialize` call, or a successful `set_model` rebuild. -/
def opBuildsClient (P : Provider) (st : Manager) : Op → Bool
  | Op.opInit k => initSucceeds P st k
  | Op.opSetModel m =>
      st.api_key != "" && exOk (P.configure st.api_key) && exOk (P.generativeModel m)
  | Op.opGetModels => false
  | Op.opTestConn => st.client.isNone && initSucceeds P st none
  | Op.opProcessCell _ _ _ _ _ _ => st.client.isNone && initSucceeds P st none

/-- Some operation along `ops`, run from `st`, contains a successful
`initialize` call. -/
abbrev initAlong (P : Provider) (st : Manager) (ops : List Op) : Prop :=
  ∃ i : Fin ops.length, opInitSuccess P (run P st (ops.take i.val)) (ops.get i) = true

/-- Some operation along `ops`, run from `st`, constructs a client handle. -/
abbrev buildsAlong (P : Provider) (st : Manager) (ops : List Op) : Prop :=
  ∃ i : Fin ops.length, opBuildsClient P (run P st (ops.take i.val)) (ops.get i) = true

/-! ## Concrete fixtures used by witnesses and counterexamples -/

/-- A stub provider that always succeeds and echoes the fixed string `OK`. -/
def okProvider : Provider :=
  ⟨fun _ => Except.ok (), fun _ => Except.ok (), fun _ _ _ => Except.ok (some "OK")⟩

/-- A stub provider answering every generation request with `"  Positive  "`. -/
def positiveProvider : Provider :=
  ⟨fun _ => Except.ok (), fun _ => Except.ok (), fun _ _ _ => Except.ok (some "  Positive  ")⟩

/-- A stub provider whose responses carry empty text. -/
def emptyRespProvider : Provider :=
  ⟨fun _ => Except.ok (), fun _ => Except.ok (), fun _ _ _ => Except.ok (some "")⟩

/-- A stub provider raising `boom` from every SDK call. -/
def boomProvider : Provider :=
  ⟨fun _ => Except.error "boom", fun _ => Except.error "boom",
   fun _ _ _ => Except.error "boom"⟩

/-- A stub provider that configures and constructs fine but raises `boom`
from every generation request. -/
def genBoomProvider : Provider :=
  ⟨fun _ => Except.ok (), fun _ => Except.ok (), fun _ _ _ => Except.error "boom"⟩

/-- A stub provider for which only constructing a client for model id `new`
raises. -/
def newModelFailsProvider : Provider :=
  ⟨fun _ => Except.ok (),
   fun m => if m = "new" then Except.error "bad" else Except.ok (),
   fun _ _ _ => Except.ok (some "OK")⟩

/-- A stub provider for which only model id `m2` constructs successfully. -/
def modelPickyProvider : Provider :=
  ⟨fun _ => Except.ok (),
   fun m => if m = "m2" then Except.ok () else Except.error "bad model",
   fun _ _ _ => Except.ok (some "OK")⟩

/-- A client handle bound to the fixture credential and model. -/
def readyClient : Client := ⟨"key", "models/gemini-2.0-flash"⟩

/-- A manager that has been initialized successfully. -/
def readyManager : Manager := ⟨"key", "models/gemini-2.0-flash", some readyClient⟩

/-- A freshly constructed manager with no credential (default arguments). -/
def bareManager : Manager := ⟨"", "gemini-1.5-flash", none⟩

/-- A manager holding a client handle bound to model id `old`. -/
def staleManager : Manager := ⟨"k", "old", some ⟨"k", "old"⟩⟩

/-- The operation sequence of the C9 counterexample: a failed `initialize`
that stores the credential, then a `set_model` whose rebuild succeeds. -/
def ops0 : List Op := [Op.opInit (some "kk"), Op.opSetModel "m2"]

/-- The descriptor value used to mutate a returned record in place. -/
def mutatedDescriptor : ModelDescriptor := ⟨"mutated", "Mutated", "x"⟩

/-! ## Helper lemmas about the operations -/

lemma withKeyArg_client (st : Manager) (k : Option String) :
    (withKeyArg st k).client = st.client := by
  cases k with
  | none => rfl
  | some s =>
    by_cases hs : s = "" <;> simp [withKeyArg, hs]

lemma withKeyArg_none (st : Manager) : withKeyArg st none = st := rfl

lemma withKeyArg_empty (st : Manager) : withKeyArg st (some "") = st := by
  simp [withKeyArg]

lemma initCore_fst_of_false (P : Provider) (st : Manager)
    (h : (initCore P st).2 = false) : (initCore P st).1 = st := by
  revert h
  unfold initCore
  split
  · intro _; rfl
  · split
    · intro _; rfl
    · split
      · intro _; rfl
      · intro h; simp at h

lemma initCore_true_iff (P : Provider) (st : Manager) :
    (initCore P st).2 = true ↔
      st.api_key ≠ "" ∧ exOk (P.configure st.api_key) = true ∧
        exOk (P.generativeModel st.model) = true := by
  unfold initCore
  split
  · rename_i hk
    simp [hk]
  · rename_i hk
    split
    · rename_i heq
      simp [hk, heq, exOk]
    · rename_i heq
      split
      · rename_i heq2
        simp [hk, heq, heq2, exOk]
      · rename_i heq2
        simp [hk, heq, heq2, exOk]

lemma initCore_client_of_true (P : Provider) (st : Manager)
    (h : (initCore P st).2 = true) :
    (initCore P st).1.client = some ⟨st.api_key, st.model⟩ := by
  revert h
  unfold initCore
  split
  · intro h; simp at h
  · split
    · intro h; simp at h
    · split
      · intro h; simp at h
      · intro _; rfl

lemma initManager_fst_of_false (P : Provider) (st : Manager) (k : Option String)
    (h : (initManager P st k).2 = false) :
    (initManager P st k).1.client = st.client := by
  have h1 := initCore_fst_of_false P (withKeyArg st k) h
  unfold initManager at *
  rw [h1, withKeyArg_client]

lemma initManager_client_of_true (P : Provider) (st : Manager) (k : Option String)
    (h : (initManager P st k).2 = true) :
    ∃ c : Client, (initManager P st k).1.client = some c := by
  exact ⟨_, initCore_client_of_true P (withKeyArg st k) h⟩

lemma set_model_cases (P : Provider) (st : Manager) (m : String) :
    (set_model P st m = ⟨st.api_key, m, st.client⟩ ∧
       (st.api_key = "" ∨ exOk (P.configure st.api_key) = false ∨
         exOk (P.generativeModel m) = false)) ∨
    (set_model P st m = ⟨st.api_key, m, some ⟨st.api_key, m⟩⟩ ∧
       st.api_key ≠ "" ∧ exOk (P.configure st.api_key) = true ∧
         exOk (P.generativeModel m) = true) := by
  unfold set_model
  dsimp only
  split
  · rename_i hk
    exact Or.inl ⟨rfl, Or.inl hk⟩
  · rename_i hk
    split
    · rename_i heq
      exact Or.inl ⟨rfl, Or.inr (Or.inl (by simp [exOk, heq]))⟩
    · rename_i heq
      split
      · rename_i heq2
        exact Or.inl ⟨rfl, Or.inr (Or.inr (by simp [exOk, heq2]))⟩
      · rename_i heq2
        exact Or.inr ⟨rfl, hk, by simp [exOk, heq], by simp [exOk, heq2]⟩

lemma connBody_fst (P : Provider) (st : Manager) (c : Client) :
    (connBody P st c).1 = st := by
  unfold connBody
  split
  · rfl
  · split <;> rfl

lemma connBody_calls (P : Provider) (st : Manager) (c : Client) :
    (connBody P st c).2.2 = [⟨c, probePrompt, probeConfig⟩] := by
  unfold connBody
  split
  · rfl
  · split <;> rfl

lemma cellBody_fst (P : Provider) (st : Manager) (c : Client) (p : String) (cfg : GenConfig) :
    (cellBody P st c p cfg).1 = st := by
  unfold cellBody
  split
  · rfl
  · split <;> rfl

lemma cellBody_calls (P : Provider) (st : Manager) (c : Client) (p : String) (cfg : GenConfig) :
    (cellBody P st c p cfg).2.2 = [⟨c, p, cfg⟩] := by
  unfold cellBody
  split
  · rfl
  · split <;> rfl

lemma test_connection_of_some (P : Provider) (st : Manager) (c : Client)
    (h : st.client = some c) : test_connection P st = connBody P st c := by
  unfold test_connection
  rw [h]

lemma test_connection_of_none_fail (P : Provider) (st : Manager)
    (h : st.client = none) (h2 : initSucceeds P st none = false) :
    test_connection P st =
      ((initManager P st none).1, (false, "Gemini API client not initialized"), []) := by
  unfold test_connection
  rw [h]
  simp only [initSucceeds] at h2
  simp [h2]

lemma test_connection_of_none_ok (P : Provider) (st : Manager)
    (h : st.client = none) (h2 : initSucceeds P st none = true) :
    ∃ c : Client, (initManager P st none).1.client = some c ∧
      test_connection P st = connBody P (initManager P st none).1 c := by
  obtain ⟨c, hc⟩ := initManager_client_of_true P st none h2
  refine ⟨c, hc, ?goal⟩
  unfold test_connection
  rw [h]
  simp only [initSucceeds] at h2
  simp [h2, hc]

lemma process_of_some (P : Provider) (st : Manager) (c : Client)
    (cell s u : String) (temp : Rat) (mt : Nat) (ctx : Option (List (String × String)))
    (h : st.client = some c) :
    process_single_cell P st cell s u temp mt ctx =
      cellBody P st c (buildPrompt cell s u ctx) ⟨mt, temp⟩ := by
  unfold process_single_cell
  rw [h]

lemma process_of_none_fail (P : Provider) (st : Manager)
    (cell s u : String) (temp : Rat) (mt : Nat) (ctx : Option (List (String × String)))
    (h : st.client = none) (h2 : initSucceeds P st none = false) :
    process_single_cell P st cell s u temp mt ctx =
      ((initManager P st none).1,
        (false, none, some "Gemini API client not initialized"), []) := by
  unfold process_single_cell
  rw [h]
  simp only [initSucceeds] at h2
  simp [h2]

lemma process_of_none_ok (P : Provider) (st : Manager)
    (cell s u : String) (temp : Rat) (mt : Nat) (ctx : Option (List (String × String)))
    (h : st.client = none) (h2 : initSucceeds P st none = true) :
    ∃ c : Client, (initManager P st none).1.client = some c ∧
      process_single_cell P st cell s u temp mt ctx =
        cellBody P (initManager P st none).1 c (buildPrompt cell s u ctx) ⟨mt, temp⟩ := by
  obtain ⟨c, hc⟩ := initManager_client_of_true P st none h2
  refine ⟨c, hc, ?goal⟩
  unfold process_single_cell
  rw [h]
  simp only [initSucceeds] at h2
  simp [h2, hc]

lemma step_client_isSome (P : Provider) (st : Manager) (op : Op)
    (h : (step P st op).client.isSome = true) :
    st.client.isSome = true ∨ opBuildsClient P st op = true := by
  cases op with
  | opInit k =>
    by_cases hb : (initManager P st k).2 = true
    · exact Or.inr hb
    · rw [step, initManager_fst_of_false P st k (by simpa using hb)] at h
      exact Or.inl h
  | opSetModel m =>
    rcases set_model_cases P st m with ⟨he, _⟩ | ⟨_, hk, h1, h2⟩
    · rw [step, he] at h
      exact Or.inl h
    · exact Or.inr (by simp [opBuildsClient, hk, h1, h2])
  | opGetModels => exact Or.inl h
  | opTestConn =>
    cases hc : st.client with
    | some c =>
      simp [hc]
    | none =>
      by_cases hb : initSucceeds P st none = true
      · exact Or.inr (by simp [opBuildsClient, hc, hb])
      · rw [step, test_connection_of_none_fail P st hc (by simpa using hb)] at h
        rw [initManager_fst_of_false P st none (by simpa [initSucceeds] using hb), hc] at h
        simp at h
  | opProcessCell cell s u temp mt ctx =>
    cases hc : st.client with
    | some c =>
      simp [hc]
    | none =>
      by_cases hb : initSucceeds P st none = true
      · exact Or.inr (by simp [opBuildsClient, hc, hb])
      · rw [step, process_of_none_fail P st cell s u temp mt ctx hc (by simpa using hb)] at h
        rw [initManager_fst_of_false P st none (by simpa [initSucceeds] using hb), hc] at h
        simp at h

lemma run_client_isSome (P : Provider) : ∀ (ops : List Op) (st : Manager),
    (run P st ops).client.isSome = true →
      st.client.isSome = true ∨ buildsAlong P st ops := by
  intro ops
  induction ops with
  | nil =>
    intro st h
    exact Or.inl h
  | cons op os ih =>
    intro st h
    rcases ih (step P st op) h with h1 | h2
    · rcases step_client_isSome P st op h1 with h3 | h4
      · exact Or.inl h3
      · refine Or.inr ⟨⟨0, by simp⟩, ?goal⟩
        simpa [run] using h4
    · obtain ⟨i, hi⟩ := h2
      refine Or.inr ⟨i.succ, ?goal2⟩
      simpa [run, List.take_succ_cons, List.get_cons_succ, Fin.val_succ] using hi

lemma mkManager_client_isSome (P : Provider) (k m : String)
    (h : (mkManager P k m).client.isSome = true) :
    k ≠ "" ∧ initSucceeds P ⟨k, m, none⟩ (some k) = true := by
  by_cases hk : k = ""
  · rw [mkManager] at h
    simp [hk] at h
  · refine ⟨hk, ?goal⟩
    by_cases hb : initSucceeds P ⟨k, m, none⟩ (some k) = true
    · exact hb
    · exfalso
      rw [mkManager] at h
      simp only [hk, if_false] at h
      rw [initManager_fst_of_false P ⟨k, m, none⟩ (some k)
        (by simpa [initSucceeds] using hb)] at h
      simp at h

/-! ## String lemmas for the prompt format -/

lemma ctxFoldl_eq (l : List (String × String)) (a : String) :
    l.foldl (fun acc p => acc ++ "- " ++ p.1 ++ ": " ++ p.2 ++ "\n") a =
      a ++ concatLines (l.map (fun p => "- " ++ p.1 ++ ": " ++ p.2 ++ "\n")) := by
  induction l generalizing a with
  | nil => simp [concatLines, String.append_empty]
  | cons q tq ih =>
    rw [List.foldl_cons, ih]
    simp [concatLines, String.append_assoc]

lemma buildPrompt_some_eq_spec (cell s u : String) (l : List (String × String)) :
    buildPrompt cell s u (some l) = specPrompt cell s u l := by
  cases l with
  | nil =>
    have h1 : ("\n\nCell content: " : String) = "\n\n" ++ "Cell content: " := rfl
    simp [buildPrompt, specPrompt, h1, String.append_assoc, String.append_empty]
  | cons kv tl =>
    have h1 : ("\n\nCell content: " : String) = "\n\n" ++ "Cell content: " := rfl
    have h2 : ("\n\nContext information:\n" : String) =
        "\n\n" ++ "Context information:" ++ "\n" := rfl
    simp only [buildPrompt, specPrompt, List.length_cons, Nat.succ_pos, if_true,
      List.isEmpty_cons, Bool.false_eq_true, if_false, ctxFoldl_eq]
    simp [h1, h2, String.append_assoc]

lemma buildPrompt_none_eq_spec (cell s u : String) :
    buildPrompt cell s u none = specPrompt cell s u [] := by
  have h1 : ("\n\nCell content: " : String) = "\n\n" ++ "Cell content: " := rfl
  simp [buildPrompt, specPrompt, h1, String.append_assoc, String.append_empty]

/-! ## Claim theorems -/

/-- C1: for every cell content, system prompt, user prompt and ordered context
data, `process_single_cell` on a manager holding a client sends the provider
exactly one request whose prompt is the string the claim describes
(`specPrompt`): system prompt, blank line, user prompt, blank line,
`Cell content: ` followed by the cell text, and — for non-empty context
data — a `Context information:` block with one `- key: value` line per entry
in iteration order, each ending in a newline; with absent or empty context
data the prompt ends after the cell text with no context block. -/
theorem c1_prompt_sent (P : Provider) (st : Manager) (c : Client)
    (cell s u : String) (temp : Rat) (mt : Nat)
    (h : st.client = some c) :
    (∀ ctx : List (String × String),
       (process_single_cell P st cell s u temp mt (some ctx)).2.2 =
         [⟨c, specPrompt cell s u ctx, ⟨mt, temp⟩⟩]) ∧
    (process_single_cell P st cell s u temp mt none).2.2 =
      [⟨c, specPrompt cell s u [], ⟨mt, temp⟩⟩] := by
  constructor
  · intro ctx
    rw [process_of_some P st c cell s u temp mt (some ctx) h, cellBody_calls,
      buildPrompt_some_eq_spec]
  · rw [process_of_some P st c cell s u temp mt none h, cellBody_calls,
      buildPrompt_none_eq_spec]

/-- Witness for C1 at the claim's concrete example: the exact prompt string of
`process_single_cell("B2", "Classify sentiment", "Return positive/negative",
context_data={"Column A": "Revenue"})`. -/
theorem c1_witness :
    readyManager.client = some readyClient ∧
    (process_single_cell okProvider readyManager "B2" "Classify sentiment"
        "Return positive/negative" defaultTemperature defaultMaxTokens
        (some [("Column A", "Revenue")])).2.2 =
      [⟨readyClient,
        "Classify sentiment\n\nReturn positive/negative\n\nCell content: B2\n\nContext information:\n- Column A: Revenue\n",
        ⟨defaultMaxTokens, defaultTemperature⟩⟩] := by
  refine ⟨rfl, ?goal⟩
  rw [(c1_prompt_sent okProvider readyManager readyClient "B2" "Classify sentiment"
    "Return positive/negative" defaultTemperature defaultMaxTokens rfl).1
      [("Column A", "Revenue")]]
  rfl

/-- C2: on an initialized manager, a provider response with non-empty text `t`
makes `process_single_cell` return `(true, strip(t), none)`, and a response
with no usable text makes it return
`(false, none, "Empty response from Gemini API")` — never success. -/
theorem c2_response_handling (P : Provider) (st : Manager) (c : Client)
    (cell s u : String) (temp : Rat) (mt : Nat) (ctx : Option (List (String × String)))
    (h : st.client = some c) :
    (∀ t : String, t ≠ "" →
       P.generate_content c (buildPrompt cell s u ctx) ⟨mt, temp⟩ = Except.ok (some t) →
       (process_single_cell P st cell s u temp mt ctx).2.1 =
         (true, some (pyStrip t), none)) ∧
    (∀ r : Option String, respHasText r = false →
       P.generate_content c (buildPrompt cell s u ctx) ⟨mt, temp⟩ = Except.ok r →
       (process_single_cell P st cell s u temp mt ctx).2.1 =
         (false, none, some "Empty response from Gemini API")) := by
  constructor
  · intro t ht hg
    rw [process_of_some P st c cell s u temp mt ctx h]
    unfold cellBody
    rw [hg]
    simp [respHasText, ht]
  · intro r hr hg
    rw [process_of_some P st c cell s u temp mt ctx h]
    unfold cellBody
    rw [hg]
    simp [hr]

/-- Witness for C2: response text `"  Positive  "` yields
`(true, "Positive", none)`; an empty response text yields the failure
triple. -/
theorem c2_witness :
    (process_single_cell positiveProvider readyManager "B2" "s" "u"
        defaultTemperature defaultMaxTokens none).2.1 = (true, some "Positive", none) ∧
    (process_single_cell emptyRespProvider readyManager "B2" "s" "u"
        defaultTemperature defaultMaxTokens none).2.1 =
      (false, none, some "Empty response from Gemini API") := by
  constructor
  · have h := (c2_response_handling positiveProvider readyManager readyClient "B2" "s" "u"
      defaultTemperature defaultMaxTokens none rfl).1 "  Positive  " (by decide) rfl
    rw [h]
    decide
  · exact (c2_response_handling emptyRespProvider readyManager readyClient "B2" "s" "u"
      defaultTemperature defaultMaxTokens none rfl).2 (some "") (by decide) rfl

/-- C3: every public operation is a total function of the embedding (no
exception escapes), and provider exceptions are converted at the boundary:
`process_single_cell` and `test_connection` turn a generation exception `e`
into a failure whose message is `"Gemini Error: " ++ e` (hence contains `e`),
`initialize` turns configure/constructor exceptions into the return value
`false`, and `set_model` swallows the rebuild exception while keeping the
stored model id. -/
theorem c3_exceptions_converted (P : Provider) :
    (∀ (st : Manager) (c : Client) (cell s u : String) (temp : Rat) (mt : Nat)
       (ctx : Option (List (String × String))) (e : String), st.client = some c →
       P.generate_content c (buildPrompt cell s u ctx) ⟨mt, temp⟩ = Except.error e →
       (process_single_cell P st cell s u temp mt ctx).2.1 =
           (false, none, some ("Gemini Error: " ++ e)) ∧
         ∃ p, "Gemini Error: " ++ e = p ++ e) ∧
    (∀ (st : Manager) (c : Client) (e : String), st.client = some c →
       P.generate_content c probePrompt probeConfig = Except.error e →
       (test_connection P st).2.1 = (false, "Gemini Error: " ++ e) ∧
         ∃ p, "Gemini Error: " ++ e = p ++ e) ∧
    (∀ (st : Manager) (e : String), st.api_key ≠ "" →
       P.configure st.api_key = Except.error e → (initManager P st none).2 = false) ∧
    (∀ (st : Manager) (e : String) (u1 : Unit), st.api_key ≠ "" →
       P.configure st.api_key = Except.ok u1 →
       P.generativeModel st.model = Except.error e →
       (initManager P st none).2 = false) ∧
    (∀ (st : Manager) (m : String), (set_model P st m).model = m) := by
  refine ⟨?a, ?b, ?c, ?d, ?e⟩
  · intro st c cell s u temp mt ctx e h hg
    rw [process_of_some P st c cell s u temp mt ctx h]
    unfold cellBody
    rw [hg]
    exact ⟨rfl, ⟨"Gemini Error: ", rfl⟩⟩
  · intro st c e h hg
    rw [test_connection_of_some P st c h]
    unfold connBody
    rw [hg]
    exact ⟨rfl, ⟨"Gemini Error: ", rfl⟩⟩
  · intro st e hk he
    simp [initManager, withKeyArg, initCore, hk, he]
  · intro st e u1 hk hc he
    simp [initManager, withKeyArg, initCore, hk, hc, he]
  · intro st m
    rcases set_model_cases P st m with ⟨he, _⟩ | ⟨he, _⟩ <;> rw [he]

/-- Witness for C3 at concrete stub providers. -/
theorem c3_witness :
    (process_single_cell genBoomProvider readyManager "c" "s" "u"
        defaultTemperature defaultMaxTokens none).2.1 =
      (false, none, some "Gemini Error: boom") ∧
    (test_connection genBoomProvider readyManager).2.1 = (false, "Gemini Error: boom") ∧
    (initManager boomProvider readyManager none).2 = false ∧
    (set_model boomProvider readyManager "m2").model = "m2" := by
  refine ⟨?a, ?b, ?c, ?d⟩
  · exact ((c3_exceptions_converted genBoomProvider).1 readyManager readyClient "c" "s" "u"
      defaultTemperature defaultMaxTokens none "boom" rfl rfl).1
  · exact ((c3_exceptions_converted genBoomProvider).2.1 readyManager readyClient "boom"
      rfl rfl).1
  · exact (c3_exceptions_converted boomProvider).2.2.1 readyManager "boom" (by decide) rfl
  · exact (c3_exceptions_converted boomProvider).2.2.2.2 readyManager "m2"

/-- C4 (amended): `get_available_models` returns a list matching the static
four-entry descriptor set, and mutating the returned list object never
affects subsequent calls; but the copy is shallow, so mutating a descriptor
record reachable from the returned list is visible through the class
attribute. -/
theorem c4_shallow_copy :
    (readListObj (get_available_models heap0).1 (get_available_models heap0).2 =
        AVAILABLE_MODELS.map some ∧ AVAILABLE_MODELS.length = 4) ∧
    (∀ (h : PyHeap) (elems : List Nat), 0 < h.lists.length →
       readListObj
         (get_available_models
           (mutateListObj (get_available_models h).1 (get_available_models h).2 elems)).1
         (get_available_models
           (mutateListObj (get_available_models h).1 (get_available_models h).2 elems)).2 =
         readListObj (get_available_models h).1 (get_available_models h).2) ∧
    (0 ∈ (get_available_models heap0).1.lists.getD (get_available_models heap0).2 [] ∧
       readListObj (mutateDictObj (get_available_models heap0).1 0 mutatedDescriptor) 0 ≠
         AVAILABLE_MODELS.map some) := by
  refine ⟨by decide, ?frame, by decide⟩
  intro h elems hl
  simp only [get_available_models, mutateListObj, readListObj]
  have h1 : (h.lists ++ [h.lists.getD 0 []]).set h.lists.length elems = h.lists ++ [elems] := by
    rw [List.set_append_right _ _ (Nat.le_refl _)]
    simp
  rw [h1]
  have h2 : (h.lists ++ [elems]).getD 0 [] = h.lists.getD 0 [] :=
    List.getD_append _ _ _ _ hl
  have h3 : ∀ (l1 : List (List Nat)) (x : List Nat), (l1 ++ [x]).getD l1.length [] = x := by
    intro l1 x
    rw [List.getD_append_right _ _ _ _ (Nat.le_refl _)]
    simp
  rw [h2]
  have h4 := h3 (h.lists ++ [elems]) (h.lists.getD 0 [])
  simp only [List.length_append, List.length_cons, List.length_nil] at h4 ⊢
  rw [h4, h3 h.lists (h.lists.getD 0 [])]

/-- Witness for C4: list-level mutation of the returned copy leaves the next
call's contents equal to the static set. -/
theorem c4_witness :
    readListObj
      (get_available_models
        (mutateListObj (get_available_models heap0).1 (get_available_models heap0).2 [])).1
      (get_available_models
        (mutateListObj (get_available_models heap0).1 (get_available_models heap0).2 [])).2 =
      AVAILABLE_MODELS.map some := by
  rw [c4_shallow_copy.2.1 heap0 [] (by decide)]
  exact c4_shallow_copy.1.1

/-- Counterexample for C4 as stated: mutating a descriptor record inside the
returned list changes what a subsequent `get_available_models` call returns,
because `list.copy()` is shallow and the dict objects are shared. -/
theorem c4_counterexample :
    0 ∈ (get_available_models heap0).1.lists.getD (get_available_models heap0).2 [] ∧
    readListObj
      (get_available_models (mutateDictObj (get_available_models heap0).1 0 mutatedDescriptor)).1
      (get_available_models (mutateDictObj (get_available_models heap0).1 0 mutatedDescriptor)).2 ≠
      AVAILABLE_MODELS.map some := by
  decide

/-- C5 (amended): when client construction inside `initialize` fails — the
configure call or the constructor raises — `initialize` returns `false` and
leaves the manager, including its client handle, exactly as it was; the
handle is therefore unset afterwards only when it was unset before the
call. -/
theorem c5_init_failure_keeps_handle (P : Provider) (st : Manager) :
    (∀ e : String, st.api_key ≠ "" → P.configure st.api_key = Except.error e →
       initManager P st none = (st, false)) ∧
    (∀ (u1 : Unit) (e : String), st.api_key ≠ "" → P.configure st.api_key = Except.ok u1 →
       P.generativeModel st.model = Except.error e →
       initManager P st none = (st, false)) ∧
    (st.client = none → (initManager P st none).2 = false →
       (initManager P st none).1.client = none) := by
  refine ⟨?a, ?b, ?c⟩
  · intro e hk he
    simp [initManager, withKeyArg, initCore, hk, he]
  · intro u1 e hk hc he
    simp [initManager, withKeyArg, initCore, hk, hc, he]
  · intro hc hf
    rw [initManager_fst_of_false P st none hf, hc]

/-- Witness for C5 (amended) at a failing provider. -/
theorem c5_witness :
    initManager boomProvider readyManager none = (readyManager, false) := by
  exact (c5_init_failure_keeps_handle boomProvider readyManager).1 "boom" (by decide) rfl

/-- Counterexample for C5 as stated: with a pre-existing handle, a failing
`initialize` returns `false` but the handle is NOT unset afterwards. -/
theorem c5_counterexample :
    (initManager boomProvider readyManager none).2 = false ∧
    (initManager boomProvider readyManager none).1.client ≠ none ∧
    (initManager boomProvider readyManager none).1.client = some readyClient := by
  decide

/-- C6: a manager with no client handle and no stored credential: the lazy
`initialize` inside `process_single_cell` fails, the call returns the failure
triple with a non-empty message, the state is unchanged, and no provider
request is issued. -/
theorem c6_lazy_init_failure (P : Provider) (st : Manager)
    (cell s u : String) (temp : Rat) (mt : Nat) (ctx : Option (List (String × String)))
    (h1 : st.client = none) (h2 : st.api_key = "") :
    process_single_cell P st cell s u temp mt ctx =
      (st, (false, none, some "Gemini API client not initialized"), []) ∧
    initSucceeds P st none = false ∧
    ("Gemini API client not initialized" : String) ≠ "" := by
  have hfail : initSucceeds P st none = false := by
    simp [initSucceeds, initManager, withKeyArg, initCore, h2]
  have hini : initManager P st none = (st, false) := by
    simp [initManager, withKeyArg, initCore, h2]
  refine ⟨?a, hfail, by decide⟩
  rw [process_of_none_fail P st cell s u temp mt ctx h1 hfail, hini]

/-- Witness for C6 on the default-constructed manager. -/
theorem c6_witness :
    process_single_cell okProvider bareManager "c" "s" "u"
        defaultTemperature defaultMaxTokens none =
      (bareManager, (false, none, some "Gemini API client not initialized"), []) := by
  exact (c6_lazy_init_failure okProvider bareManager "c" "s" "u"
    defaultTemperature defaultMaxTokens none rfl rfl).1

/-- C7 (amended): `test_connection` lazily initializes when the handle is
null, returning `(false, "Gemini API client not initialized")` when that
fails and probing with the fresh client when it succeeds; with a client, a
probe response with non-empty text gives exactly
`(true, "Gemini connection successful")`, and a probe response without
usable text gives `(false, "Invalid response from Gemini API")`, a non-empty
descriptive message. -/
theorem c7_test_connection (P : Provider) :
    (∀ st : Manager, st.client = none → initSucceeds P st none = false →
       (test_connection P st).2.1 = (false, "Gemini API client not initialized")) ∧
    (∀ st : Manager, st.client = none → initSucceeds P st none = true →
       ∃ c : Client, (initManager P st none).1.client = some c ∧
         test_connection P st = connBody P (initManager P st none).1 c) ∧
    (∀ (st : Manager) (c : Client) (r : Option String), st.client = some c →
       P.generate_content c probePrompt probeConfig = Except.ok r → respHasText r = true →
       (test_connection P st).2.1 = (true, "Gemini connection successful")) ∧
    (∀ (st : Manager) (c : Client) (r : Option String), st.client = some c →
       P.generate_content c probePrompt probeConfig = Except.ok r → respHasText r = false →
       (test_connection P st).2.1 = (false, "Invalid response from Gemini API") ∧
         ("Invalid response from Gemini API" : String) ≠ "") := by
  refine ⟨?a, ?b, ?c, ?d⟩
  · intro st hc hf
    rw [test_connection_of_none_fail P st hc hf]
  · intro st hc ht
    exact test_connection_of_none_ok P st hc ht
  · intro st c r hc hg hr
    rw [test_connection_of_some P st c hc]
    unfold connBody
    rw [hg]
    simp [hr]
  · intro st c r hc hg hr
    rw [test_connection_of_some P st c hc]
    unfold connBody
    rw [hg]
    simp [hr]

/-- Witness for C7 (amended): the stub `OK` provider makes `test_connection`
succeed with the exact success message; the no-credential manager and the
empty-text probe produce the two failure messages. -/
theorem c7_witness :
    (test_connection okProvider readyManager).2.1 = (true, "Gemini connection successful") ∧
    (test_connection boomProvider bareManager).2.1 =
      (false, "Gemini API client not initialized") ∧
    (test_connection emptyRespProvider readyManager).2.1 =
      (false, "Invalid response from Gemini API") := by
  refine ⟨?a, ?b, ?c⟩
  · exact (c7_test_connection okProvider).2.2.1 readyManager readyClient (some "OK")
      rfl rfl (by decide)
  · exact (c7_test_connection boomProvider).1 bareManager rfl (by decide)
  · exact ((c7_test_connection emptyRespProvider).2.2.2 readyManager readyClient (some "")
      rfl rfl (by decide)).1

/-- Counterexample for C7 as stated: when the lazy initialize fails, the
returned message is `"Gemini API client not initialized"`, not the claimed
`"client not initialized"`. -/
theorem c7_counterexample :
    (test_connection okProvider bareManager).2.1 =
      (false, "Gemini API client not initialized") ∧
    (test_connection okProvider bareManager).2.1 ≠ (false, "client not initialized") := by
  decide

/-- C8 (amended): with a credential set, `set_model(m)` always stores `m` and
never throws.  When the provider rebuild succeeds, the client handle is bound
to `m` and a subsequent `process_single_cell` issues its request against `m`;
when the rebuild raises, the previous handle (possibly bound to the old
model) is silently kept. -/
theorem c8_set_model_switches (P : Provider) (st : Manager) (m : String)
    (h : st.api_key ≠ "") :
    ((set_model P st m).model = m) ∧
    (∀ u1 u2 : Unit, P.configure st.api_key = Except.ok u1 →
       P.generativeModel m = Except.ok u2 →
       (set_model P st m).client = some ⟨st.api_key, m⟩ ∧
       (∀ (cell s u : String) (temp : Rat) (mt : Nat)
          (ctx : Option (List (String × String))),
          (process_single_cell P (set_model P st m) cell s u temp mt ctx).2.2 =
            [⟨⟨st.api_key, m⟩, buildPrompt cell s u ctx, ⟨mt, temp⟩⟩])) ∧
    (∀ e : String, P.configure st.api_key = Except.error e →
       (set_model P st m).client = st.client) ∧
    (∀ (u1 : Unit) (e : String), P.configure st.api_key = Except.ok u1 →
       P.generativeModel m = Except.error e →
       (set_model P st m).client = st.client) := by
  refine ⟨?a, ?b, ?c, ?d⟩
  · rcases set_model_cases P st m with ⟨he, _⟩ | ⟨he, _⟩ <;> rw [he]
  · intro u1 u2 hc hg
    have he : set_model P st m = ⟨st.api_key, m, some ⟨st.api_key, m⟩⟩ := by
      simp [set_model, h, hc, hg]
    refine ⟨by rw [he], ?e⟩
    intro cell s u temp mt ctx
    rw [process_of_some P (set_model P st m) ⟨st.api_key, m⟩ cell s u temp mt ctx
      (by rw [he]), cellBody_calls]
  · intro e hc
    simp [set_model, h, hc]
  · intro u1 e hc hg
    simp [set_model, h, hc, hg]

/-- Witness for C8 (amended): after a successful rebuild the request is issued
against the new model id. -/
theorem c8_witness :
    (set_model okProvider staleManager "new").client = some ⟨"k", "new"⟩ ∧
    (process_single_cell okProvider (set_model okProvider staleManager "new") "c" "s" "u"
        defaultTemperature defaultMaxTokens none).2.2 =
      [⟨⟨"k", "new"⟩, buildPrompt "c" "s" "u" none, ⟨defaultMaxTokens, defaultTemperature⟩⟩] := by
  have h := (c8_set_model_switches okProvider staleManager "new" (by decide)).2.1 () () rfl rfl
  exact ⟨h.1, h.2 "c" "s" "u" defaultTemperature defaultMaxTokens none⟩

/-- Counterexample for C8 as stated: with the credential set, when the rebuild
for the new model id raises, the stored model id is updated but the next
`process_single_cell` issues its request against the previously selected
model, not the new one. -/
theorem c8_counterexample :
    staleManager.api_key ≠ "" ∧
    (set_model newModelFailsProvider staleManager "new").model = "new" ∧
    ((process_single_cell newModelFailsProvider
        (set_model newModelFailsProvider staleManager "new") "c" "s" "u"
        defaultTemperature defaultMaxTokens none).2.2.map (fun g => g.client.model)) =
      ["old"] ∧
    ("old" : String) ≠ "new" := by
  refine ⟨by decide, by decide, ?a, by decide⟩
  have he : set_model newModelFailsProvider staleManager "new" =
      ⟨"k", "new", some ⟨"k", "old"⟩⟩ := by
    simp [set_model, staleManager, newModelFailsProvider]
  rw [he, process_of_some newModelFailsProvider ⟨"k", "new", some ⟨"k", "old"⟩⟩ ⟨"k", "old"⟩
    "c" "s" "u" defaultTemperature defaultMaxTokens none rfl, cellBody_calls]
  rfl

/-- C9 (amended): in every state reachable from a freshly constructed manager
by public operations, the client handle is non-null only if some earlier
operation constructed it — a successful `initialize` call (possibly the
constructor's or a lazy one) or a successful `set_model` rebuild; and both
`test_connection` and `process_single_cell`, invoked while the handle is
null, attempt the lazy initialize first: if it fails they report failure
without issuing any provider request, and if it succeeds they issue the
request. -/
theorem c9_client_invariant (P : Provider) :
    (∀ (k m : String) (ops : List Op),
       (run P (mkManager P k m) ops).client.isSome = true →
       (k ≠ "" ∧ initSucceeds P ⟨k, m, none⟩ (some k) = true) ∨
         buildsAlong P (mkManager P k m) ops) ∧
    (∀ (st : Manager) (cell s u : String) (temp : Rat) (mt : Nat)
       (ctx : Option (List (String × String))), st.client = none →
       (initSucceeds P st none = false →
          (process_single_cell P st cell s u temp mt ctx).2.2 = [] ∧
          (process_single_cell P st cell s u temp mt ctx).2.1 =
            (false, none, some "Gemini API client not initialized")) ∧
       (initSucceeds P st none = true →
          (process_single_cell P st cell s u temp mt ctx).2.2 ≠ [])) ∧
    (∀ st : Manager, st.client = none →
       (initSucceeds P st none = false →
          (test_connection P st).2.2 = [] ∧
          (test_connection P st).2.1 = (false, "Gemini API client not initialized")) ∧
       (initSucceeds P st none = true → (test_connection P st).2.2 ≠ [])) := by
  refine ⟨?a, ?b, ?c⟩
  · intro k m ops h
    rcases run_client_isSome P ops (mkManager P k m) h with h1 | h2
    · exact Or.inl (mkManager_client_isSome P k m h1)
    · exact Or.inr h2
  · intro st cell s u temp mt ctx hc
    constructor
    · intro hf
      rw [process_of_none_fail P st cell s u temp mt ctx hc hf]
      exact ⟨rfl, rfl⟩
    · intro ht
      obtain ⟨c, _, he⟩ := process_of_none_ok P st cell s u temp mt ctx hc ht
      rw [he, cellBody_calls]
      simp
  · intro st hc
    constructor
    · intro hf
      rw [test_connection_of_none_fail P st hc hf]
      exact ⟨rfl, rfl⟩
    · intro ht
      obtain ⟨c, _, he⟩ := test_connection_of_none_ok P st hc ht
      rw [he, connBody_calls]
      simp

/-- Witness for C9 (amended) at concrete runs. -/
theorem c9_witness :
    (("key" ≠ "" ∧ initSucceeds okProvider ⟨"key", "m", none⟩ (some "key") = true) ∨
       buildsAlong okProvider (mkManager okProvider "key" "m") []) ∧
    (process_single_cell okProvider bareManager "c" "s" "u"
        defaultTemperature defaultMaxTokens none).2.2 = [] ∧
    (test_connection okProvider ⟨"k2", "m2", none⟩).2.2 ≠ [] := by
  refine ⟨?a, ?b, ?c⟩
  · exact (c9_client_invariant okProvider).1 "key" "m" [] (by decide)
  · exact (((c9_client_invariant okProvider).2.1 bareManager "c" "s" "u"
      defaultTemperature defaultMaxTokens none rfl).1 (by decide)).1
  · exact ((c9_client_invariant okProvider).2.2 ⟨"k2", "m2", none⟩ rfl).2 (by decide)

/-- Counterexample for C9 as stated: a failed `initialize` stores the
credential, and a later `set_model` whose rebuild succeeds then constructs
the client handle, so the handle is non-null although no `initialize` call
ever succeeded. -/
theorem c9_counterexample :
    (run modelPickyProvider (mkManager modelPickyProvider "" "gemini-1.5-flash")
        ops0).client.isSome = true ∧
    ¬ (("" ≠ "" ∧
          initSucceeds modelPickyProvider ⟨"", "gemini-1.5-flash", none⟩ (some "") = true) ∨
        initAlong modelPickyProvider
          (mkManager modelPickyProvider "" "gemini-1.5-flash") ops0) := by
  decide

/-- C10: `initialize("")` does not overwrite the stored credential — it
behaves exactly like `initialize()` with no argument, and in particular still
fails when no credential is stored; the credential cannot be cleared through
`initialize`. -/
theorem c10_empty_key_like_none (P : Provider) (st : Manager) :
    initManager P st (some "") = initManager P st none ∧
    (st.api_key = "" → initManager P st (some "") = (st, false)) := by
  constructor
  · unfold initManager
    rw [withKeyArg_empty, withKeyArg_none]
  · intro h
    unfold initManager
    rw [withKeyArg_empty]
    simp [initCore, h]

/-- Witness for C10 on the credential-less manager. -/
theorem c10_witness :
    initManager okProvider bareManager (some "") = (bareManager, false) := by
  exact (c10_empty_key_like_none okProvider bareManager).2 rfl

end ExcelAI
